import Mathlib

/-!
Verification of `scripts/generate_logo.py`.

The script is a single linear pipeline: validate the argument count, read
`sys.argv[1]` (input file) and `sys.argv[2]` (name prefix), detect the
`--favicon` flag by membership in `sys.argv`, check that the input file
exists, create the output directory `public/logo` (recursively, tolerating
existence), decode the source image once, and then write resized PNG copies:
one per entry of the `sizes` dict (32/64/128/256, square, LANCZOS filter,
`optimize=True`), one 256x256 "loading" copy under `public`, and, only when
the flag is present, a 32x32 `public/favicon.png`.

The embedding below models the filesystem as a map from literal path strings
to file data plus a set of existing directories, the decoded image as a
value recording its pixel dimensions together with the chain of resize
operations that produced it (so provenance of every output is visible), and
the run of `main` as a pure function returning the exit outcome, the final
filesystem and the ordered trace of observable events (directory creation,
file writes, printed lines).
-/

namespace Wooly

/-- Resampling filters of the imaging library; the script only ever uses
`Image.Resampling.LANCZOS`. -/
inductive Resampling where
  | LANCZOS
deriving DecidableEq

/-- A decoded raster image. `content` identifies the decoded pixel data of
the original file, `origWidth`/`origHeight` are the dimensions it was decoded
at, and `resizeHist` is the chain of resize operations applied to it (newest
first); a freshly decoded image has an empty chain. PIL's `Image.resize`
returns a new image and never mutates its receiver, which the embedding
mirrors by returning a value with one more entry in the chain. -/
structure Image where
  content : Nat
  origWidth : Nat
  origHeight : Nat
  resizeHist : List (Nat × Nat × Resampling)
deriving DecidableEq

/-- Pixel width of an image: the width requested by the most recent resize,
or the decoded width if it was never resized. -/
def Image.width (img : Image) : Nat :=
  match img.resizeHist with
  | [] => img.origWidth
  | (w, _, _) :: _ => w

/-- Pixel height of an image, symmetric to `Image.width`. -/
def Image.height (img : Image) : Nat :=
  match img.resizeHist with
  | [] => img.origHeight
  | (_, h, _) :: _ => h

/-- Model of `img.resize(size, filter)`: a new image whose pixel dimensions
are `size` and whose provenance records the operation; the receiver is left
untouched. -/
def Image.resize (img : Image) (size : Nat × Nat) (f : Resampling) : Image :=
  { img with resizeHist := (size.1, size.2, f) :: img.resizeHist }

/-- Content of a PNG file produced by `resized.save(path, "PNG", optimize=True)`:
the in-memory image that was encoded, the format string passed to `save`, and
whether compression optimization was requested. -/
structure SavedPNG where
  image : Image
  format : String
  optimize : Bool
deriving DecidableEq

/-- Data stored in a file of the modelled filesystem: a file decodable as a
raster image, a PNG written by the script, or opaque bytes that the imaging
library cannot decode. -/
inductive FileData where
  | image (img : Image)
  | png (p : SavedPNG)
  | blob (bytes : Nat)
deriving DecidableEq

/-- The filesystem: files keyed by their literal path string, plus the set of
directories that exist. -/
structure FS where
  files : String → Option FileData
  dirs : String → Bool

/-- Writing a file (the effect of `save`): the path is bound to the new data,
everything else is untouched. -/
def FS.writeFile (fs : FS) (p : String) (d : FileData) : FS :=
  { fs with files := fun q => if q = p then some d else fs.files q }

/-- Splitting a character list at a separator character; used to model the
path-component structure of POSIX paths. -/
def splitOnChar (c : Char) : List Char → List (List Char)
  | [] => [[]]
  | x :: xs =>
    let r := splitOnChar c xs
    if x = c then [] :: r
    else
      match r with
      | [] => [[x]]
      | y :: ys => (x :: y) :: ys

/-- Joining strings with `/` separators. -/
def joinSlash : List String → String
  | [] => ""
  | [x] => x
  | x :: xs => x ++ "/" ++ joinSlash xs

/-- The `/`-separated components of a path. -/
def pathParts (p : String) : List String :=
  (splitOnChar '/' p.data).map String.mk

/-- The chain of directories `os.makedirs(p)` creates for a relative path
`p`: each proper prefix of the component list, e.g. for `public/logo` the
directories `public` and `public/logo`. -/
def pathAncestors (p : String) : List String :=
  (List.range (pathParts p).length).map (fun i => joinSlash ((pathParts p).take (i + 1)))

/-- Model of `os.makedirs(p, exist_ok=True)`: every ancestor directory of `p`
exists afterwards; files and already-existing directories are untouched. -/
def FS.makedirs (fs : FS) (p : String) : FS :=
  { fs with dirs := fun d => if d ∈ pathAncestors p then true else fs.dirs d }

/-- POSIX resolution of `.` and `..` components of a path, used to state
where a written path actually lands in the directory tree. -/
def normalizeParts (parts : List String) : List String :=
  parts.foldl
    (fun acc part =>
      if part = "" ∨ part = "." then acc
      else if part = ".." then acc.dropLast
      else acc ++ [part]) []

/-- The path a written path string resolves to once `.` and `..` components
are eliminated. -/
def normalizePath (p : String) : String :=
  joinSlash (normalizeParts (pathParts p))

/-- Whether a path, after resolution, lies strictly inside the directory
`dir`. -/
def isUnder (dir p : String) : Bool :=
  List.isPrefixOf (dir ++ "/").data (normalizePath p).data

/-- Whether a string begins with the path separator, as `posixpath.join`
tests on its second argument. -/
def startsWithSlash (s : String) : Bool :=
  match s.data with
  | [] => false
  | c :: _ => c = '/'

/-- Whether a string ends with the path separator. -/
def endsWithSlash (s : String) : Bool :=
  match s.data.getLast? with
  | some c => c = '/'
  | none => false

/-- Model of `os.path.join(a, b)` for POSIX paths and two components: an
absolute second component discards the first, otherwise the two are joined
with a single separator. -/
def osPathJoin (a b : String) : String :=
  if startsWithSlash b then b
  else if a = "" then b
  else if endsWithSlash a then a ++ b
  else a ++ "/" ++ b

/-- Decoding a file with `Image.open`: image files decode to their image, a
PNG previously saved by the script decodes to the pixel content it stored,
and anything else fails. -/
def decodeFile : Option FileData → Option Image
  | some (FileData.image i) => some i
  | some (FileData.png p) => some p.image
  | _ => none

/-- Observable events of a run, in program order. -/
inductive Event where
  | makedirs (dir : String)
  | wrote (path : String) (data : SavedPNG)
  | printed (line : String)
deriving DecidableEq

/-- How the process ended: a plain exit with a code, or an uncaught
exception (e.g. `Image.open` failing on undecodable data). -/
inductive Outcome where
  | exited (code : Nat)
  | raised
deriving DecidableEq

/-- Result of one invocation of the script. -/
structure RunResult where
  outcome : Outcome
  fs : FS
  events : List Event

/-- The usage line printed when fewer than three `sys.argv` entries exist. -/
def usageMsg : String := "Usage: python scripts/generate_logo.py <input> <prefix> [--favicon]"

/-- The final success line, `f"\nAll {prefix} logos generated successfully!"`. -/
def successMsg (pfx : String) : String := "\nAll " ++ pfx ++ " logos generated successfully!"

/-- The `sizes` dict of the script, in insertion order. -/
def sizesList : List (String × Nat × Nat) :=
  [("32", 32, 32), ("64", 64, 64), ("128", 128, 128), ("256", 256, 256)]

/-- Output path of one per-size file: `os.path.join(output_dir, f"{prefix}-{name}.png")`
with `output_dir = "public/logo"`. -/
def sizePath (pfx name : String) : String :=
  osPathJoin "public/logo" (pfx ++ "-" ++ name ++ ".png")

/-- Output path of the loading copy: `os.path.join("public", f"logo-loading-{prefix}.png")`. -/
def loadingPath (pfx : String) : String :=
  osPathJoin "public" ("logo-loading-" ++ pfx ++ ".png")

/-- Output path of the favicon: `os.path.join("public", "favicon.png")`. -/
def faviconPath : String :=
  osPathJoin "public" "favicon.png"

/-- The file content saved for a resize of `img` to `s`: LANCZOS filter,
`"PNG"` format, `optimize=True`. -/
def sizeSaved (img : Image) (s : Nat × Nat) : SavedPNG :=
  ⟨img.resize s Resampling.LANCZOS, "PNG", true⟩

/-- The output stage of `main` (everything after `Image.open` succeeded):
the per-size loop over `sizes`, the unconditional loading copy, the favicon
gated on the flag, and the final success line. -/
def runGenerate (pfx : String) (gen_favicon : Bool) (fs : FS) (img : Image) : RunResult :=
  let fe := sizesList.foldl
    (fun acc s =>
      (acc.1.writeFile (sizePath pfx s.1) (FileData.png (sizeSaved img s.2)),
       acc.2 ++ [Event.wrote (sizePath pfx s.1) (sizeSaved img s.2),
                 Event.printed ("Generated: " ++ sizePath pfx s.1)]))
    (fs, [Event.makedirs ("public/logo")])
  let fs2 := fe.1.writeFile (loadingPath pfx) (FileData.png (sizeSaved img (256, 256)))
  let evs2 := fe.2 ++ [Event.wrote (loadingPath pfx) (sizeSaved img (256, 256)),
                       Event.printed ("Generated: " ++ loadingPath pfx)]
  if gen_favicon then
    ⟨Outcome.exited 0,
     fs2.writeFile faviconPath (FileData.png (sizeSaved img (32, 32))),
     evs2 ++ [Event.wrote faviconPath (sizeSaved img (32, 32)),
              Event.printed ("Generated: " ++ faviconPath),
              Event.printed (successMsg pfx)]⟩
  else
    ⟨Outcome.exited 0, fs2, evs2 ++ [Event.printed (successMsg pfx)]⟩

/-- The part of `main` after the argument-count check: the `os.path.isfile`
test (failure prints the not-found line and exits 1 with the filesystem
untouched), then `os.makedirs("public/logo", exist_ok=True)`, then
`Image.open` (failure propagates as an uncaught exception), then the output
stage. -/
def runChecked (input_file pfx : String) (gen_favicon : Bool) (fs : FS) : RunResult :=
  if (fs.files input_file).isSome then
    let fs1 := fs.makedirs ("public/logo")
    match decodeFile (fs1.files input_file) with
    | some img => runGenerate pfx gen_favicon fs1 img
    | none => ⟨Outcome.raised, fs1, [Event.makedirs ("public/logo")]⟩
  else
    ⟨Outcome.exited 1, fs, [Event.printed ("Error: '" ++ input_file ++ "' not found")]⟩

/-- Model of `main` applied to the full `sys.argv` (program name included):
fewer than three entries prints the usage line and exits 1; otherwise the
input is `sys.argv[1]`, the prefix is `sys.argv[2]`, and the favicon flag is
detected by membership anywhere in `sys.argv`. -/
def run (argv : List String) (fs : FS) : RunResult :=
  if argv.length < 3 then
    ⟨Outcome.exited 1, fs, [Event.printed usageMsg]⟩
  else
    runChecked (argv.getD 1 "") (argv.getD 2 "") (argv.contains ("--favicon")) fs

/-- A concrete 512x512 decodable source image used by concrete instances. -/
def testImg : Image := ⟨0, 512, 512, []⟩

/-- A filesystem holding exactly one decodable file `logo.png`. -/
def baseFS : FS :=
  ⟨fun q => if q = "logo.png" then some (FileData.image testImg) else none, fun _ => false⟩

/-- A filesystem holding exactly one decodable file `logo-dark.png`. -/
def darkFS : FS :=
  ⟨fun q => if q = "logo-dark.png" then some (FileData.image testImg) else none, fun _ => false⟩

@[simp]
theorem FS.files_makedirs (fs : FS) (p : String) : (fs.makedirs p).files = fs.files := rfl

@[simp]
theorem FS.dirs_writeFile (fs : FS) (p : String) (d : FileData) :
    (fs.writeFile p d).dirs = fs.dirs := rfl

theorem FS.ext_of {a b : FS} (hf : a.files = b.files) (hd : a.dirs = b.dirs) : a = b := by
  cases a
  cases b
  cases hf
  cases hd
  rfl

theorem str_ne_of_idx (i : Nat) {a b : String} (h : a.data[i]? ≠ b.data[i]?) : a ≠ b :=
  fun e => h (by rw [e])

theorem str_append_cancel_left (a : String) {b c : String} (h : a ++ b = a ++ c) : b = c :=
  String.ext (List.append_cancel_left (by rw [← String.data_append, ← String.data_append, h]))

theorem str_append_cancel_right {b c : String} (a : String) (h : b ++ a = c ++ a) : b = c :=
  String.ext (List.append_cancel_right (by rw [← String.data_append, ← String.data_append, h]))

theorem data_append_ne_nil (a b : String) (hb : b.data ≠ []) : (a ++ b).data ≠ [] := by
  rw [String.data_append]
  intro h
  exact hb (List.append_eq_nil.mp h).2

theorem data_append_ne_nil_left (a b : String) (ha : a.data ≠ []) : (a ++ b).data ≠ [] := by
  rw [String.data_append]
  intro h
  exact ha (List.append_eq_nil.mp h).1

theorem startsWithSlash_append (a b : String) (ha : a.data ≠ []) :
    startsWithSlash (a ++ b) = startsWithSlash a := by
  unfold startsWithSlash
  rw [String.data_append]
  cases h : a.data with
  | nil => exact absurd h ha
  | cons c cs => simp [h]

theorem startsWithSlash_append_no_slash {p : String} (hp : '/' ∉ p.data) (b : String)
    (hb : startsWithSlash b = false) : startsWithSlash (p ++ b) = false := by
  unfold startsWithSlash at hb ⊢
  rw [String.data_append]
  cases h : p.data with
  | nil => simpa using hb
  | cons c cs =>
    simp only [List.cons_append]
    have hc : c ≠ '/' := by
      intro hc
      exact hp (hc ▸ h ▸ List.mem_cons_self c cs)
    simp [hc]

theorem osPathJoin_logo (b : String) (h : startsWithSlash b = false) :
    osPathJoin "public/logo" b = "public/logo/" ++ b := by
  unfold osPathJoin
  rw [if_neg (by simp [h]), if_neg (by decide), if_neg (by decide)]
  rfl

theorem osPathJoin_public (b : String) (h : startsWithSlash b = false) :
    osPathJoin "public" b = "public/" ++ b := by
  unfold osPathJoin
  rw [if_neg (by simp [h]), if_neg (by decide), if_neg (by decide)]
  rfl

theorem startsWithSlash_pfxDash (pfx : String) (hp : '/' ∉ pfx.data) :
    startsWithSlash (pfx ++ "-") = false := by
  apply startsWithSlash_append_no_slash hp
  rfl

theorem startsWithSlash_sizeComp (pfx n : String) :
    startsWithSlash (pfx ++ "-" ++ n ++ ".png") = startsWithSlash (pfx ++ "-") := by
  rw [startsWithSlash_append (pfx ++ "-" ++ n) ".png"
      (data_append_ne_nil_left (pfx ++ "-") n (data_append_ne_nil pfx "-" (by decide)))]
  rw [startsWithSlash_append (pfx ++ "-") n (data_append_ne_nil pfx "-" (by decide))]

theorem slash_of_startsWithSlash {s : String} (h : startsWithSlash s = true) :
    s.data[0]? = some '/' := by
  unfold startsWithSlash at h
  cases hd : s.data with
  | nil => rw [hd] at h; simp at h
  | cons c cs =>
    rw [hd] at h
    simp at h
    simp_all

theorem idx11_sizePath (r : String) : ("public/logo/" ++ r).data[11]? = some '/' := by
  rw [String.data_append]
  rw [List.getElem?_append_left (by decide : (11 : Nat) < "public/logo/".data.length)]
  decide

theorem loadingComp_no_abs (pfx : String) :
    startsWithSlash ("logo-loading-" ++ pfx ++ ".png") = false := by
  rw [startsWithSlash_append ("logo-loading-" ++ pfx) ".png"
      (data_append_ne_nil_left "logo-loading-" pfx (by decide))]
  rw [startsWithSlash_append "logo-loading-" pfx (by decide)]
  rfl

theorem loadingPath_eq (pfx : String) :
    loadingPath pfx = "public/" ++ ("logo-loading-" ++ pfx ++ ".png") := by
  unfold loadingPath
  exact osPathJoin_public _ (loadingComp_no_abs pfx)

theorem idx11_loadingPath (pfx : String) : (loadingPath pfx).data[11]? = some '-' := by
  rw [loadingPath_eq, String.data_append]
  rw [List.getElem?_append_right (by decide : "public/".data.length ≤ 11)]
  rw [show (11 : Nat) - "public/".data.length = 4 from by decide]
  rw [String.data_append]
  rw [List.getElem?_append_left
      (by
        rw [String.data_append, List.length_append]
        have h13 : "logo-loading-".data.length = 13 := by decide
        omega)]
  rw [String.data_append]
  rw [List.getElem?_append_left (by decide : (4 : Nat) < "logo-loading-".data.length)]
  decide

theorem osPathJoin_abs (a b : String) (h : startsWithSlash b = true) : osPathJoin a b = b := by
  unfold osPathJoin
  rw [if_pos h]

theorem idx0_public (r : String) : ("public/" ++ r).data[0]? = some 'p' := by
  rw [String.data_append]
  rw [List.getElem?_append_left (by decide : (0 : Nat) < "public/".data.length)]
  decide

theorem idx0_publogo (r : String) : ("public/logo/" ++ r).data[0]? = some 'p' := by
  rw [String.data_append]
  rw [List.getElem?_append_left (by decide : (0 : Nat) < "public/logo/".data.length)]
  decide

theorem sizePath_eq_of_no_slash (pfx n : String) (hp : '/' ∉ pfx.data) :
    sizePath pfx n = "public/logo/" ++ (pfx ++ "-" ++ n ++ ".png") := by
  unfold sizePath
  apply osPathJoin_logo
  rw [startsWithSlash_sizeComp]
  exact startsWithSlash_pfxDash pfx hp

theorem sizePath_ne_favicon (pfx n : String) : sizePath pfx n ≠ faviconPath := by
  by_cases hs : startsWithSlash (pfx ++ "-" ++ n ++ ".png") = true
  · have e : sizePath pfx n = pfx ++ "-" ++ n ++ ".png" := osPathJoin_abs _ _ hs
    apply str_ne_of_idx 0
    rw [e, slash_of_startsWithSlash hs]
    decide
  · have hs' : startsWithSlash (pfx ++ "-" ++ n ++ ".png") = false := by simpa using hs
    have e : sizePath pfx n = "public/logo/" ++ (pfx ++ "-" ++ n ++ ".png") :=
      osPathJoin_logo _ hs'
    apply str_ne_of_idx 11
    rw [e, idx11_sizePath]
    decide

theorem sizePath_ne_loading (pfx pfx' n : String) : sizePath pfx n ≠ loadingPath pfx' := by
  by_cases hs : startsWithSlash (pfx ++ "-" ++ n ++ ".png") = true
  · have e : sizePath pfx n = pfx ++ "-" ++ n ++ ".png" := osPathJoin_abs _ _ hs
    apply str_ne_of_idx 0
    rw [e, slash_of_startsWithSlash hs, loadingPath_eq, idx0_public]
    decide
  · have hs' : startsWithSlash (pfx ++ "-" ++ n ++ ".png") = false := by simpa using hs
    have e : sizePath pfx n = "public/logo/" ++ (pfx ++ "-" ++ n ++ ".png") :=
      osPathJoin_logo _ hs'
    apply str_ne_of_idx 11
    rw [e, idx11_sizePath, idx11_loadingPath]
    decide

theorem loadingPath_ne_favicon (pfx : String) : loadingPath pfx ≠ faviconPath := by
  apply str_ne_of_idx 11
  rw [idx11_loadingPath]
  decide

theorem sizePath_inj (pfx : String) {n n' : String} (h : sizePath pfx n = sizePath pfx n') :
    n = n' := by
  have cancelComp :
      pfx ++ "-" ++ n ++ ".png" = pfx ++ "-" ++ n' ++ ".png" → n = n' := by
    intro hcomp
    rw [String.append_assoc (pfx ++ "-") n ".png",
        String.append_assoc (pfx ++ "-") n' ".png"] at hcomp
    exact str_append_cancel_right ".png" (str_append_cancel_left (pfx ++ "-") hcomp)
  by_cases hs : startsWithSlash (pfx ++ "-") = true
  · unfold sizePath at h
    rw [osPathJoin_abs _ _ ((startsWithSlash_sizeComp pfx n).trans hs),
        osPathJoin_abs _ _ ((startsWithSlash_sizeComp pfx n').trans hs)] at h
    exact cancelComp h
  · have hs' : startsWithSlash (pfx ++ "-") = false := by simpa using hs
    unfold sizePath at h
    rw [osPathJoin_logo _ ((startsWithSlash_sizeComp pfx n).trans hs'),
        osPathJoin_logo _ ((startsWithSlash_sizeComp pfx n').trans hs')] at h
    exact cancelComp (str_append_cancel_left "public/logo/" h)

theorem isSome_of_decode {o : Option FileData} {img : Image} (h : decodeFile o = some img) :
    o.isSome = true := by
  cases o with
  | none => simp [decodeFile] at h
  | some d => rfl

theorem runGenerate_files_false (pfx : String) (fs : FS) (img : Image) :
    (runGenerate pfx false fs img).fs.files = fun q =>
      if q = loadingPath pfx then some (FileData.png (sizeSaved img (256, 256)))
      else if q = sizePath pfx "256" then some (FileData.png (sizeSaved img (256, 256)))
      else if q = sizePath pfx "128" then some (FileData.png (sizeSaved img (128, 128)))
      else if q = sizePath pfx "64" then some (FileData.png (sizeSaved img (64, 64)))
      else if q = sizePath pfx "32" then some (FileData.png (sizeSaved img (32, 32)))
      else fs.files q := rfl

theorem runGenerate_files_true (pfx : String) (fs : FS) (img : Image) :
    (runGenerate pfx true fs img).fs.files = fun q =>
      if q = faviconPath then some (FileData.png (sizeSaved img (32, 32)))
      else if q = loadingPath pfx then some (FileData.png (sizeSaved img (256, 256)))
      else if q = sizePath pfx "256" then some (FileData.png (sizeSaved img (256, 256)))
      else if q = sizePath pfx "128" then some (FileData.png (sizeSaved img (128, 128)))
      else if q = sizePath pfx "64" then some (FileData.png (sizeSaved img (64, 64)))
      else if q = sizePath pfx "32" then some (FileData.png (sizeSaved img (32, 32)))
      else fs.files q := rfl

theorem runGenerate_dirs (pfx : String) (gen : Bool) (fs : FS) (img : Image) :
    (runGenerate pfx gen fs img).fs.dirs = fs.dirs := by
  cases gen <;> rfl

theorem runGenerate_outcome (pfx : String) (gen : Bool) (fs : FS) (img : Image) :
    (runGenerate pfx gen fs img).outcome = Outcome.exited 0 := by
  cases gen <;> rfl

theorem runGenerate_events_false (pfx : String) (fs : FS) (img : Image) :
    (runGenerate pfx false fs img).events =
      [Event.makedirs ("public/logo"),
       Event.wrote (sizePath pfx "32") (sizeSaved img (32, 32)),
       Event.printed ("Generated: " ++ sizePath pfx "32"),
       Event.wrote (sizePath pfx "64") (sizeSaved img (64, 64)),
       Event.printed ("Generated: " ++ sizePath pfx "64"),
       Event.wrote (sizePath pfx "128") (sizeSaved img (128, 128)),
       Event.printed ("Generated: " ++ sizePath pfx "128"),
       Event.wrote (sizePath pfx "256") (sizeSaved img (256, 256)),
       Event.printed ("Generated: " ++ sizePath pfx "256"),
       Event.wrote (loadingPath pfx) (sizeSaved img (256, 256)),
       Event.printed ("Generated: " ++ loadingPath pfx),
       Event.printed (successMsg pfx)] := rfl

theorem runGenerate_events_true (pfx : String) (fs : FS) (img : Image) :
    (runGenerate pfx true fs img).events =
      [Event.makedirs ("public/logo"),
       Event.wrote (sizePath pfx "32") (sizeSaved img (32, 32)),
       Event.printed ("Generated: " ++ sizePath pfx "32"),
       Event.wrote (sizePath pfx "64") (sizeSaved img (64, 64)),
       Event.printed ("Generated: " ++ sizePath pfx "64"),
       Event.wrote (sizePath pfx "128") (sizeSaved img (128, 128)),
       Event.printed ("Generated: " ++ sizePath pfx "128"),
       Event.wrote (sizePath pfx "256") (sizeSaved img (256, 256)),
       Event.printed ("Generated: " ++ sizePath pfx "256"),
       Event.wrote (loadingPath pfx) (sizeSaved img (256, 256)),
       Event.printed ("Generated: " ++ loadingPath pfx),
       Event.wrote faviconPath (sizeSaved img (32, 32)),
       Event.printed ("Generated: " ++ faviconPath),
       Event.printed (successMsg pfx)] := rfl

theorem run_success (argv : List String) (fs : FS) (img : Image)
    (h3 : 3 ≤ argv.length)
    (hdec : decodeFile (fs.files (argv.getD 1 "")) = some img) :
    run argv fs =
      runGenerate (argv.getD 2 "") (argv.contains ("--favicon"))
        (fs.makedirs ("public/logo")) img := by
  unfold run
  rw [if_neg (by omega)]
  unfold runChecked
  rw [if_pos (isSome_of_decode hdec)]
  simp only [FS.files_makedirs]
  rw [hdec]

theorem makedirs_dirs_pub (fs : FS) : (fs.makedirs ("public/logo")).dirs ("public") = true := by
  show (if ("public" : String) ∈ pathAncestors ("public/logo") then true
        else fs.dirs ("public")) = true
  rw [if_pos (by decide)]

theorem makedirs_dirs_publogo (fs : FS) :
    (fs.makedirs ("public/logo")).dirs ("public/logo") = true := by
  show (if ("public/logo" : String) ∈ pathAncestors ("public/logo") then true
        else fs.dirs ("public/logo")) = true
  rw [if_pos (by decide)]

/-- Claim C2: whenever `sys.argv` names an input path that is not an existing
file (with enough arguments for an input path to be given at all), the run
prints the not-found error line, exits with status 1, and leaves the
filesystem completely unchanged — in particular no output file and no output
directory is created, since the `os.path.isfile` check precedes
`os.makedirs`: the whole result is exactly the error exit on the original
filesystem with the single printed line as its only event. -/
theorem missing_input_atomic (argv : List String) (fs : FS)
    (h3 : 3 ≤ argv.length)
    (hmiss : fs.files (argv.getD 1 "") = none) :
    run argv fs =
      ⟨Outcome.exited 1, fs,
       [Event.printed ("Error: '" ++ argv.getD 1 "" ++ "' not found")]⟩ := by
  unfold run
  rw [if_neg (by omega)]
  unfold runChecked
  rw [if_neg (by rw [hmiss]; simp)]

/-- Witness for C2 at a concrete invocation: input `missing.png` is absent
from `baseFS`, and the run is exactly the error exit leaving `baseFS`
untouched. -/
theorem missing_input_atomic_witness :
    run ["scripts/generate_logo.py", "missing.png", "light"] baseFS =
      ⟨Outcome.exited 1, baseFS, [Event.printed ("Error: 'missing.png' not found")]⟩ :=
  missing_input_atomic ["scripts/generate_logo.py", "missing.png", "light"] baseFS
    (by decide) (by decide)

/-- Claim C3: with fewer than two positional arguments (`sys.argv` shorter
than three entries, the program name included), the run prints the usage
line and exits with status 1; with at least two positional arguments and an
existing, decodable input it proceeds and exits with status 0. -/
theorem usage_and_exit_codes (argv : List String) (fs : FS) :
    (argv.length < 3 →
      run argv fs = ⟨Outcome.exited 1, fs, [Event.printed usageMsg]⟩) ∧
    (∀ img : Image, 3 ≤ argv.length →
      decodeFile (fs.files (argv.getD 1 "")) = some img →
      (run argv fs).outcome = Outcome.exited 0) := by
  constructor
  · intro h
    unfold run
    rw [if_pos h]
  · intro img h3 hdec
    rw [run_success argv fs img h3 hdec]
    exact runGenerate_outcome _ _ _ _

/-- Witness for C3: a one-argument invocation exits 1 with the usage line,
and a full invocation on a decodable `logo.png` exits 0. -/
theorem usage_and_exit_codes_witness :
    run ["scripts/generate_logo.py"] baseFS =
      ⟨Outcome.exited 1, baseFS, [Event.printed usageMsg]⟩ ∧
    (run ["scripts/generate_logo.py", "logo.png", "light"] baseFS).outcome =
      Outcome.exited 0 :=
  ⟨(usage_and_exit_codes ["scripts/generate_logo.py"] baseFS).1 (by decide),
   (usage_and_exit_codes ["scripts/generate_logo.py", "logo.png", "light"] baseFS).2
     testImg (by decide) (by decide)⟩

/-- Claim C7: the decoded source image is never overwritten — every file the
run writes holds the original decoded image with exactly one resize applied
to it (so no output is a resize of a resized copy), and a resize always
yields a new image value distinct from its receiver. -/
theorem resize_from_original (argv : List String) (fs : FS) (img : Image)
    (h3 : 3 ≤ argv.length)
    (hdec : decodeFile (fs.files (argv.getD 1 "")) = some img) :
    (∀ p d, Event.wrote p d ∈ (run argv fs).events →
      ∃ s, d.image = img.resize s Resampling.LANCZOS) ∧
    (∀ (s : Nat × Nat) (f : Resampling), img.resize s f ≠ img) := by
  constructor
  · intro p d hmem
    rw [run_success argv fs img h3 hdec] at hmem
    rcases Bool.eq_false_or_eq_true (argv.contains ("--favicon")) with hg | hg <;>
      rw [hg] at hmem
    · rw [runGenerate_events_true] at hmem
      simp at hmem
      rcases hmem with ⟨rfl, rfl⟩ | ⟨rfl, rfl⟩ | ⟨rfl, rfl⟩ | ⟨rfl, rfl⟩ | ⟨rfl, rfl⟩ | ⟨rfl, rfl⟩ <;>
        exact ⟨_, rfl⟩
    · rw [runGenerate_events_false] at hmem
      simp at hmem
      rcases hmem with ⟨rfl, rfl⟩ | ⟨rfl, rfl⟩ | ⟨rfl, rfl⟩ | ⟨rfl, rfl⟩ | ⟨rfl, rfl⟩ <;>
        exact ⟨_, rfl⟩
  · intro s f h
    have h2 : (s.1, s.2, f) :: img.resizeHist = img.resizeHist :=
      congrArg Image.resizeHist h
    exact List.cons_ne_self _ _ h2

/-- Witness for C7 at a concrete run: resizing the concrete source image
produces a new image value, via the theorem applied to a successful run on
`baseFS`. -/
theorem resize_from_original_witness :
    testImg.resize (32, 32) Resampling.LANCZOS ≠ testImg :=
  (resize_from_original ["scripts/generate_logo.py", "logo.png", "light"] baseFS testImg
    (by decide) (by decide)).2 (32, 32) Resampling.LANCZOS

/-- Claim C8: in every run that writes at all, the creation of the output
directory `public/logo` is the very first event — so it precedes every file
write — and afterwards both `public` and `public/logo` exist (the creation
is recursive; `FS.makedirs` is idempotent on an existing directory by
construction). -/
theorem makedirs_before_writes (argv : List String) (fs : FS)
    (hw : ∃ p d, Event.wrote p d ∈ (run argv fs).events) :
    (∃ post, (run argv fs).events = Event.makedirs ("public/logo") :: post) ∧
    (run argv fs).fs.dirs ("public") = true ∧
    (run argv fs).fs.dirs ("public/logo") = true := by
  by_cases h3 : argv.length < 3
  · exfalso
    obtain ⟨p, d, hmem⟩ := hw
    unfold run at hmem
    rw [if_pos h3] at hmem
    simp at hmem
  · have h3' : 3 ≤ argv.length := by omega
    cases hdec : decodeFile (fs.files (argv.getD 1 "")) with
    | some img =>
      rw [run_success argv fs img h3' hdec]
      rcases Bool.eq_false_or_eq_true (argv.contains ("--favicon")) with hg | hg <;> rw [hg]
      · rw [runGenerate_events_true, runGenerate_dirs]
        exact ⟨⟨_, rfl⟩, makedirs_dirs_pub fs, makedirs_dirs_publogo fs⟩
      · rw [runGenerate_events_false, runGenerate_dirs]
        exact ⟨⟨_, rfl⟩, makedirs_dirs_pub fs, makedirs_dirs_publogo fs⟩
    | none =>
      by_cases hfile : (fs.files (argv.getD 1 "")).isSome = true
      · have hrun : run argv fs =
            ⟨Outcome.raised, fs.makedirs ("public/logo"),
             [Event.makedirs ("public/logo")]⟩ := by
          unfold run
          rw [if_neg h3]
          unfold runChecked
          rw [if_pos hfile]
          simp only [FS.files_makedirs]
          rw [hdec]
        rw [hrun]
        exact ⟨⟨[], rfl⟩, makedirs_dirs_pub fs, makedirs_dirs_publogo fs⟩
      · exfalso
        obtain ⟨p, d, hmem⟩ := hw
        unfold run at hmem
        rw [if_neg h3] at hmem
        unfold runChecked at hmem
        rw [if_neg hfile] at hmem
        simp at hmem

/-- Witness for C8 at a concrete run that performs writes: afterwards both
output directories exist. -/
theorem makedirs_before_writes_witness :
    ((run ["scripts/generate_logo.py", "logo.png", "light"] baseFS).fs.dirs ("public") = true) ∧
    ((run ["scripts/generate_logo.py", "logo.png", "light"] baseFS).fs.dirs ("public/logo") = true) := by
  have h := makedirs_before_writes ["scripts/generate_logo.py", "logo.png", "light"] baseFS
    ⟨sizePath "light" "32", sizeSaved testImg (32, 32), by decide⟩
  exact ⟨h.2.1, h.2.2⟩

/-- Claim C4: in a successful run, omitting `--favicon` leaves
`public/favicon.png` exactly as it was (neither created nor modified), and
supplying it guarantees that afterwards `public/favicon.png` holds a PNG
whose pixel dimensions are exactly 32x32. -/
theorem favicon_flag_gates_output (argv : List String) (fs : FS) (img : Image)
    (h3 : 3 ≤ argv.length)
    (hdec : decodeFile (fs.files (argv.getD 1 "")) = some img) :
    (argv.contains ("--favicon") = false →
      (run argv fs).fs.files ("public/favicon.png") = fs.files ("public/favicon.png")) ∧
    (argv.contains ("--favicon") = true →
      (run argv fs).fs.files ("public/favicon.png") =
        some (FileData.png ⟨img.resize (32, 32) Resampling.LANCZOS, "PNG", true⟩) ∧
      (img.resize (32, 32) Resampling.LANCZOS).width = 32 ∧
      (img.resize (32, 32) Resampling.LANCZOS).height = 32) := by
  constructor
  · intro hg
    rw [run_success argv fs img h3 hdec, hg]
    simp only [runGenerate_files_false]
    rw [if_neg (fun he => loadingPath_ne_favicon (argv.getD 2 "") he.symm),
        if_neg (fun he => sizePath_ne_favicon (argv.getD 2 "") "256" he.symm),
        if_neg (fun he => sizePath_ne_favicon (argv.getD 2 "") "128" he.symm),
        if_neg (fun he => sizePath_ne_favicon (argv.getD 2 "") "64" he.symm),
        if_neg (fun he => sizePath_ne_favicon (argv.getD 2 "") "32" he.symm)]
    rfl
  · intro hg
    rw [run_success argv fs img h3 hdec, hg]
    simp only [runGenerate_files_true]
    rw [if_pos (show ("public/favicon.png" : String) = faviconPath from rfl)]
    exact ⟨rfl, rfl, rfl⟩

/-- Witness for C4: a concrete run without the flag leaves `public/favicon.png`
absent exactly as in `baseFS`, and a concrete run with the flag produces the
32x32 favicon. -/
theorem favicon_flag_gates_output_witness :
    ((run ["scripts/generate_logo.py", "logo.png", "light"] baseFS).fs.files
        ("public/favicon.png") = baseFS.files ("public/favicon.png")) ∧
    ((run ["scripts/generate_logo.py", "logo.png", "light", "--favicon"] baseFS).fs.files
        ("public/favicon.png") =
      some (FileData.png ⟨testImg.resize (32, 32) Resampling.LANCZOS, "PNG", true⟩) ∧
     (testImg.resize (32, 32) Resampling.LANCZOS).width = 32 ∧
     (testImg.resize (32, 32) Resampling.LANCZOS).height = 32) :=
  ⟨(favicon_flag_gates_output ["scripts/generate_logo.py", "logo.png", "light"] baseFS testImg
      (by decide) (by decide)).1 (by decide),
   (favicon_flag_gates_output ["scripts/generate_logo.py", "logo.png", "light", "--favicon"]
      baseFS testImg (by decide) (by decide)).2 (by decide)⟩

theorem darkRun_files_char :
    (run ["scripts/generate_logo.py", "logo-dark.png", "dark"] darkFS).fs.files = fun q =>
      if q = "public/logo-loading-dark.png" then
        some (FileData.png ⟨testImg.resize (256, 256) Resampling.LANCZOS, "PNG", true⟩)
      else if q = "public/logo/dark-256.png" then
        some (FileData.png ⟨testImg.resize (256, 256) Resampling.LANCZOS, "PNG", true⟩)
      else if q = "public/logo/dark-128.png" then
        some (FileData.png ⟨testImg.resize (128, 128) Resampling.LANCZOS, "PNG", true⟩)
      else if q = "public/logo/dark-64.png" then
        some (FileData.png ⟨testImg.resize (64, 64) Resampling.LANCZOS, "PNG", true⟩)
      else if q = "public/logo/dark-32.png" then
        some (FileData.png ⟨testImg.resize (32, 32) Resampling.LANCZOS, "PNG", true⟩)
      else darkFS.files q := rfl

/-- Claim C5: the concrete run with input `logo-dark.png` and prefix `dark`
produces exactly the files `public/logo/dark-32.png`, `dark-64.png`,
`dark-128.png`, `dark-256.png` and `public/logo-loading-dark.png` (every
other path is untouched, so no output uses the literal string "logo" in
place of the prefix); and in every successful run, whatever the prefix and
whether or not `--favicon` is supplied, the 256x256 loading copy is written
to `loadingPath` (the join of `public` with `logo-loading-<prefix>.png`,
the prefix substituted verbatim). -/
theorem output_names_use_pfx :
    ((run ["scripts/generate_logo.py", "logo-dark.png", "dark"] darkFS).fs.files
        ("public/logo/dark-32.png") =
      some (FileData.png ⟨testImg.resize (32, 32) Resampling.LANCZOS, "PNG", true⟩) ∧
     (run ["scripts/generate_logo.py", "logo-dark.png", "dark"] darkFS).fs.files
        ("public/logo/dark-64.png") =
      some (FileData.png ⟨testImg.resize (64, 64) Resampling.LANCZOS, "PNG", true⟩) ∧
     (run ["scripts/generate_logo.py", "logo-dark.png", "dark"] darkFS).fs.files
        ("public/logo/dark-128.png") =
      some (FileData.png ⟨testImg.resize (128, 128) Resampling.LANCZOS, "PNG", true⟩) ∧
     (run ["scripts/generate_logo.py", "logo-dark.png", "dark"] darkFS).fs.files
        ("public/logo/dark-256.png") =
      some (FileData.png ⟨testImg.resize (256, 256) Resampling.LANCZOS, "PNG", true⟩) ∧
     (run ["scripts/generate_logo.py", "logo-dark.png", "dark"] darkFS).fs.files
        ("public/logo-loading-dark.png") =
      some (FileData.png ⟨testImg.resize (256, 256) Resampling.LANCZOS, "PNG", true⟩) ∧
     (∀ q, (run ["scripts/generate_logo.py", "logo-dark.png", "dark"] darkFS).fs.files q ≠
          darkFS.files q →
        q ∈ ["public/logo/dark-32.png", "public/logo/dark-64.png", "public/logo/dark-128.png",
             "public/logo/dark-256.png", "public/logo-loading-dark.png"])) ∧
    (∀ (argv : List String) (fs : FS) (img : Image), 3 ≤ argv.length →
      decodeFile (fs.files (argv.getD 1 "")) = some img →
      (run argv fs).fs.files (loadingPath (argv.getD 2 "")) =
        some (FileData.png ⟨img.resize (256, 256) Resampling.LANCZOS, "PNG", true⟩)) := by
  constructor
  · refine ⟨by decide, by decide, by decide, by decide, by decide, ?_⟩
    intro q hq
    by_contra hnotin
    apply hq
    simp only [darkRun_files_char]
    simp only [List.mem_cons, List.not_mem_nil, or_false, not_or] at hnotin
    obtain ⟨h1, h2, h3, h4, h5⟩ := hnotin
    rw [if_neg h5, if_neg h4, if_neg h3, if_neg h2, if_neg h1]
  · intro argv fs img h3 hdec
    rw [run_success argv fs img h3 hdec]
    rcases Bool.eq_false_or_eq_true (argv.contains ("--favicon")) with hg | hg <;> rw [hg]
    · simp only [runGenerate_files_true]
      rw [if_neg (loadingPath_ne_favicon (argv.getD 2 ""))]
      rfl
    · simp only [runGenerate_files_false]
      rfl

/-- Witness for C5's quantified part at a concrete run: the loading copy is
written even though `--favicon` is absent. -/
theorem output_names_use_pfx_witness :
    (run ["scripts/generate_logo.py", "logo.png", "light"] baseFS).fs.files
        ("public/logo-loading-light.png") =
      some (FileData.png ⟨testImg.resize (256, 256) Resampling.LANCZOS, "PNG", true⟩) :=
  output_names_use_pfx.2 ["scripts/generate_logo.py", "logo.png", "light"] baseFS testImg
    (by decide) (by decide)

/-- Claim C9: the `--favicon` flag is detected by membership anywhere in the
argument vector, not by position. An invocation whose second positional
argument is the literal `--favicon` passes the argument-count check, uses
`--favicon` itself as the prefix of the per-size outputs, and enables
favicon generation; and a run depends on the argument vector only through
`sys.argv[1]`, `sys.argv[2]` and the membership test, so any further
arguments other than `--favicon` are ignored. -/
theorem favicon_by_membership :
    (∀ (prog input : String) (fs : FS) (img : Image),
      decodeFile (fs.files input) = some img →
      (run [prog, input, "--favicon"] fs).outcome = Outcome.exited 0 ∧
      (run [prog, input, "--favicon"] fs).fs.files ("public/logo/--favicon-32.png") =
        some (FileData.png ⟨img.resize (32, 32) Resampling.LANCZOS, "PNG", true⟩) ∧
      (run [prog, input, "--favicon"] fs).fs.files ("public/favicon.png") =
        some (FileData.png ⟨img.resize (32, 32) Resampling.LANCZOS, "PNG", true⟩)) ∧
    (∀ (argv argv' : List String) (fs : FS),
      3 ≤ argv.length → 3 ≤ argv'.length →
      argv.getD 1 "" = argv'.getD 1 "" →
      argv.getD 2 "" = argv'.getD 2 "" →
      argv.contains ("--favicon") = argv'.contains ("--favicon") →
      run argv fs = run argv' fs) := by
  constructor
  · intro prog input fs img hdec
    have h3 : 3 ≤ [prog, input, "--favicon"].length := le_refl 3
    have hdec' : decodeFile (fs.files ([prog, input, "--favicon"].getD 1 "")) = some img := hdec
    have hc : [prog, input, "--favicon"].contains ("--favicon") = true := by
      simp [List.contains]
    have hp : [prog, input, "--favicon"].getD 2 "" = "--favicon" := rfl
    rw [run_success [prog, input, "--favicon"] fs img h3 hdec', hc, hp]
    refine ⟨runGenerate_outcome _ _ _ _, ?_, ?_⟩
    · simp only [runGenerate_files_true]
      rw [if_neg (by decide), if_neg (by decide), if_neg (by decide), if_neg (by decide),
          if_neg (by decide), if_pos (by decide)]
      rfl
    · simp only [runGenerate_files_true]
      rw [if_pos (show ("public/favicon.png" : String) = faviconPath from rfl)]
      rfl
  · intro argv argv' fs h3 h3' h1 h2 hc
    unfold run
    rw [if_neg (by omega), if_neg (by omega), h1, h2, hc]

/-- Witness for C9: a concrete run whose second positional argument is
`--favicon` exits 0, writes the 32x32 per-size file named with the prefix
`--favicon` under `public/logo`, and writes the favicon; and appending an
extra non-flag argument leaves the whole run unchanged. -/
theorem favicon_by_membership_witness :
    ((run ["scripts/generate_logo.py", "logo.png", "--favicon"] baseFS).outcome =
        Outcome.exited 0 ∧
      (run ["scripts/generate_logo.py", "logo.png", "--favicon"] baseFS).fs.files
          ("public/logo/--favicon-32.png") =
        some (FileData.png ⟨testImg.resize (32, 32) Resampling.LANCZOS, "PNG", true⟩) ∧
      (run ["scripts/generate_logo.py", "logo.png", "--favicon"] baseFS).fs.files
          ("public/favicon.png") =
        some (FileData.png ⟨testImg.resize (32, 32) Resampling.LANCZOS, "PNG", true⟩)) ∧
    run ["scripts/generate_logo.py", "logo.png", "light", "extra-arg"] baseFS =
      run ["scripts/generate_logo.py", "logo.png", "light"] baseFS :=
  ⟨favicon_by_membership.1 "scripts/generate_logo.py" "logo.png" baseFS testImg (by decide),
   favicon_by_membership.2 ["scripts/generate_logo.py", "logo.png", "light", "extra-arg"]
     ["scripts/generate_logo.py", "logo.png", "light"] baseFS (by decide) (by decide)
     (by decide) (by decide) (by decide)⟩

theorem runGenerate_files_at_size (pfx : String) (gen : Bool) (fs : FS) (img : Image)
    (name : String) (w h : Nat) (hmem : (name, w, h) ∈ sizesList) :
    (runGenerate pfx gen fs img).fs.files (sizePath pfx name) =
      some (FileData.png (sizeSaved img (w, h))) := by
  have hdiff : ∀ m m' : String, m ≠ m' → sizePath pfx m ≠ sizePath pfx m' :=
    fun m m' hne he => hne (sizePath_inj pfx he)
  simp only [sizesList, List.mem_cons, List.not_mem_nil, or_false, Prod.mk.injEq] at hmem
  cases gen
  · simp only [runGenerate_files_false]
    rcases hmem with ⟨rfl, rfl, rfl⟩ | ⟨rfl, rfl, rfl⟩ | ⟨rfl, rfl, rfl⟩ | ⟨rfl, rfl, rfl⟩
    · rw [if_neg (sizePath_ne_loading pfx pfx "32"), if_neg (hdiff "32" "256" (by decide)),
          if_neg (hdiff "32" "128" (by decide)), if_neg (hdiff "32" "64" (by decide)),
          if_pos rfl]
    · rw [if_neg (sizePath_ne_loading pfx pfx "64"), if_neg (hdiff "64" "256" (by decide)),
          if_neg (hdiff "64" "128" (by decide)), if_pos rfl]
    · rw [if_neg (sizePath_ne_loading pfx pfx "128"), if_neg (hdiff "128" "256" (by decide)),
          if_pos rfl]
    · rw [if_neg (sizePath_ne_loading pfx pfx "256"), if_pos rfl]
  · simp only [runGenerate_files_true]
    rcases hmem with ⟨rfl, rfl, rfl⟩ | ⟨rfl, rfl, rfl⟩ | ⟨rfl, rfl, rfl⟩ | ⟨rfl, rfl, rfl⟩
    · rw [if_neg (sizePath_ne_favicon pfx "32"), if_neg (sizePath_ne_loading pfx pfx "32"),
          if_neg (hdiff "32" "256" (by decide)), if_neg (hdiff "32" "128" (by decide)),
          if_neg (hdiff "32" "64" (by decide)), if_pos rfl]
    · rw [if_neg (sizePath_ne_favicon pfx "64"), if_neg (sizePath_ne_loading pfx pfx "64"),
          if_neg (hdiff "64" "256" (by decide)), if_neg (hdiff "64" "128" (by decide)),
          if_pos rfl]
    · rw [if_neg (sizePath_ne_favicon pfx "128"), if_neg (sizePath_ne_loading pfx pfx "128"),
          if_neg (hdiff "128" "256" (by decide)), if_pos rfl]
    · rw [if_neg (sizePath_ne_favicon pfx "256"), if_neg (sizePath_ne_loading pfx pfx "256"),
          if_pos rfl]

/-- Claim C1 as amended: for every successful run whose prefix contains no
path separator `/`, each of the four SizeSpecs yields exactly one PNG at
`public/logo/` followed by `<prefix>-<label>.png`, holding the source image
resized to exactly (width, height) of that spec with the LANCZOS filter,
saved in `"PNG"` format with `optimize=True`; distinct labels yield distinct
paths. The restriction on the prefix is forced by `os.path.join`: a prefix
beginning with `/` makes the joined filename absolute, which discards the
`public/logo` directory (see the counterexample), and a prefix containing
`/` elsewhere introduces intermediate directory components. -/
theorem sizes_outputs_amended (argv : List String) (fs : FS) (img : Image)
    (h3 : 3 ≤ argv.length)
    (hdec : decodeFile (fs.files (argv.getD 1 "")) = some img)
    (hp : '/' ∉ (argv.getD 2 "").data) :
    ∀ name w h, (name, w, h) ∈ sizesList →
      (run argv fs).fs.files
          ("public/logo/" ++ (argv.getD 2 "" ++ "-" ++ name ++ ".png")) =
        some (FileData.png ⟨img.resize (w, h) Resampling.LANCZOS, "PNG", true⟩) ∧
      (img.resize (w, h) Resampling.LANCZOS).width = w ∧
      (img.resize (w, h) Resampling.LANCZOS).height = h ∧
      (∀ name' w' h', (name', w', h') ∈ sizesList → name' ≠ name →
        ("public/logo/" ++ (argv.getD 2 "" ++ "-" ++ name' ++ ".png")) ≠
          ("public/logo/" ++ (argv.getD 2 "" ++ "-" ++ name ++ ".png"))) := by
  intro name w h hmem
  have hpath : ∀ m : String,
      "public/logo/" ++ (argv.getD 2 "" ++ "-" ++ m ++ ".png") =
        sizePath (argv.getD 2 "") m :=
    fun m => (sizePath_eq_of_no_slash (argv.getD 2 "") m hp).symm
  refine ⟨?_, rfl, rfl, ?_⟩
  · rw [hpath name, run_success argv fs img h3 hdec]
    exact runGenerate_files_at_size (argv.getD 2 "") _ _ img name w h hmem
  · intro name' w' h' hmem' hne heq
    rw [hpath name', hpath name] at heq
    exact hne (sizePath_inj (argv.getD 2 "") heq)

/-- Witness for the amended C1 at a concrete run with prefix `light`. -/
theorem sizes_outputs_amended_witness :
    (run ["scripts/generate_logo.py", "logo.png", "light"] baseFS).fs.files
        ("public/logo/light-32.png") =
      some (FileData.png ⟨testImg.resize (32, 32) Resampling.LANCZOS, "PNG", true⟩) :=
  (sizes_outputs_amended ["scripts/generate_logo.py", "logo.png", "light"] baseFS testImg
    (by decide) (by decide) (by decide) "32" 32 32 (by decide)).1

/-- Counterexample to C1 as stated: with the prefix `/a` (an existing,
decodable source image, a successful run), no file at all exists at the
claimed path `public/logo/` ++ `/a-32.png`; because `os.path.join` treats
the second component as absolute, the 32x32 output is written to `/a-32.png`
instead. -/
theorem sizes_outputs_counterexample :
    (run ["scripts/generate_logo.py", "logo.png", "/a"] baseFS).fs.files
        ("public/logo/" ++ ("/a" ++ "-" ++ "32" ++ ".png")) = none ∧
    (run ["scripts/generate_logo.py", "logo.png", "/a"] baseFS).fs.files ("/a-32.png") =
      some (FileData.png ⟨testImg.resize (32, 32) Resampling.LANCZOS, "PNG", true⟩) := by
  constructor <;> decide

theorem runGenerate_restart (pfx : String) (gen : Bool) (fs : FS) (img : Image) :
    (runGenerate pfx gen
        (((runGenerate pfx gen (fs.makedirs ("public/logo")) img).fs).makedirs ("public/logo"))
        img).fs =
      (runGenerate pfx gen (fs.makedirs ("public/logo")) img).fs := by
  apply FS.ext_of
  · cases gen
    · simp only [runGenerate_files_false, FS.files_makedirs]
      funext q
      split_ifs <;> rfl
    · simp only [runGenerate_files_true, FS.files_makedirs]
      funext q
      split_ifs <;> rfl
  · funext d
    rw [runGenerate_dirs, runGenerate_dirs]
    simp only [FS.makedirs]
    rw [runGenerate_dirs]
    simp only [FS.makedirs]
    by_cases hd : d ∈ pathAncestors ("public/logo")
    · rw [if_pos hd, if_pos hd]
    · rw [if_neg hd, if_neg hd]

/-- Claim C6: running the tool twice with the same arguments is idempotent.
If the first successful run leaves the input file's contents unchanged (the
"same input file contents" premise of the claim), the second run decodes the
same image, overwrites every output with the identical content, and
re-creates the already-existing directories, so the filesystem after the
second run equals the filesystem after the first. Outputs are modelled by
their decoded pixel content, which abstracts exactly the encoder
non-determinism the claim allows for. -/
theorem run_idempotent (argv : List String) (fs : FS) (img : Image)
    (h3 : 3 ≤ argv.length)
    (hdec : decodeFile (fs.files (argv.getD 1 "")) = some img)
    (hsame : (run argv fs).fs.files (argv.getD 1 "") = fs.files (argv.getD 1 "")) :
    (run argv (run argv fs).fs).fs = (run argv fs).fs := by
  have hdec2 : decodeFile ((run argv fs).fs.files (argv.getD 1 "")) = some img := by
    rw [hsame]; exact hdec
  rw [run_success argv ((run argv fs).fs) img h3 hdec2]
  rw [run_success argv fs img h3 hdec]
  exact runGenerate_restart (argv.getD 2 "") (argv.contains ("--favicon")) fs img

/-- Witness for C6 at a concrete run: running twice on `baseFS` yields the
same filesystem as running once. -/
theorem run_idempotent_witness :
    (run ["scripts/generate_logo.py", "logo.png", "light"]
        (run ["scripts/generate_logo.py", "logo.png", "light"] baseFS).fs).fs =
      (run ["scripts/generate_logo.py", "logo.png", "light"] baseFS).fs :=
  run_idempotent ["scripts/generate_logo.py", "logo.png", "light"] baseFS testImg
    (by decide) (by decide) (by decide)

/-- Claim C10: the prefix is interpolated into output paths verbatim with no
validation or escaping. In every successful run each per-size file is
written to exactly `os.path.join("public/logo", prefix ++ "-" ++ label ++
".png")` (which `sizePath` is by definition) and the loading copy to
`os.path.join("public", "logo-loading-" ++ prefix ++ ".png")`; and with the
example prefix `../x` the 32x32 output is written to
`public/logo/../x-32.png`, which resolves to `public/x-32.png` — outside the
`public/logo` output directory. -/
theorem literal_path_join :
    (∀ (argv : List String) (fs : FS) (img : Image), 3 ≤ argv.length →
      decodeFile (fs.files (argv.getD 1 "")) = some img →
      (∀ name w h, (name, w, h) ∈ sizesList →
        sizePath (argv.getD 2 "") name =
          osPathJoin "public/logo" (argv.getD 2 "" ++ "-" ++ name ++ ".png") ∧
        Event.wrote (sizePath (argv.getD 2 "") name) (sizeSaved img (w, h)) ∈
          (run argv fs).events) ∧
      (loadingPath (argv.getD 2 "") =
          osPathJoin "public" ("logo-loading-" ++ argv.getD 2 "" ++ ".png") ∧
        Event.wrote (loadingPath (argv.getD 2 "")) (sizeSaved img (256, 256)) ∈
          (run argv fs).events)) ∧
    ((run ["scripts/generate_logo.py", "logo.png", "../x"] baseFS).fs.files
        ("public/logo/../x-32.png") =
      some (FileData.png ⟨testImg.resize (32, 32) Resampling.LANCZOS, "PNG", true⟩) ∧
     normalizePath ("public/logo/../x-32.png") = "public/x-32.png" ∧
     isUnder ("public/logo") ("public/logo/../x-32.png") = false) := by
  constructor
  · intro argv fs img h3 hdec
    constructor
    · intro name w h hmem
      refine ⟨rfl, ?_⟩
      rw [run_success argv fs img h3 hdec]
      simp only [sizesList, List.mem_cons, List.not_mem_nil, or_false, Prod.mk.injEq] at hmem
      rcases Bool.eq_false_or_eq_true (argv.contains ("--favicon")) with hg | hg <;> rw [hg]
      · rw [runGenerate_events_true]
        rcases hmem with ⟨rfl, rfl, rfl⟩ | ⟨rfl, rfl, rfl⟩ | ⟨rfl, rfl, rfl⟩ | ⟨rfl, rfl, rfl⟩ <;>
          simp
      · rw [runGenerate_events_false]
        rcases hmem with ⟨rfl, rfl, rfl⟩ | ⟨rfl, rfl, rfl⟩ | ⟨rfl, rfl, rfl⟩ | ⟨rfl, rfl, rfl⟩ <;>
          simp
    · refine ⟨rfl, ?_⟩
      rw [run_success argv fs img h3 hdec]
      rcases Bool.eq_false_or_eq_true (argv.contains ("--favicon")) with hg | hg <;> rw [hg]
      · rw [runGenerate_events_true]
        simp
      · rw [runGenerate_events_false]
        simp
  · refine ⟨by decide, by decide, by decide⟩

/-- Witness for C10's quantified part at a concrete run: the 32x32 write
event carries exactly the joined path. -/
theorem literal_path_join_witness :
    Event.wrote ("public/logo/light-32.png") (sizeSaved testImg (32, 32)) ∈
      (run ["scripts/generate_logo.py", "logo.png", "light"] baseFS).events :=
  ((literal_path_join.1 ["scripts/generate_logo.py", "logo.png", "light"] baseFS testImg
    (by decide) (by decide)).1 "32" 32 32 (by decide)).2

end Wooly
